import Mathlib

set_option maxRecDepth 100000

/-!
Verification of the scaledown guide-resolution and rule-based rewrite core.

The definitions below are a shallow embedding of the Python sources
`src/scaledown/guides/prompting_guides.py`, `src/scaledown/guides/optimizer.py`,
`src/scaledown/models/base_model.py` and `src/scaledown/api.py`.

Modelling conventions:
* Texts are `List Char` (Python `str`); guide metadata uses Lean `String`.
* The regular expressions appearing in the repository are all sequences of
  literal characters and `\s+` atoms; they are embedded as `List RTok`
  (`RTok.lit c` for a literal character, `RTok.wsPlus` for `\s+`), with
  Python's ASCII whitespace class for `\s`.
* `re.search` / `re.sub` are embedded for that pattern language with the
  leftmost-match, greedy-with-backtracking semantics of Python's `re`;
  `re.sub` replaces all non-overlapping occurrences left to right.
* Fallible code (Python `raise`) is embedded with `Except String`.
* `random.choice` is embedded by threading an injected random source
  `rand : Nat`, the drawn index being `rand % length` (it raises `IndexError`
  on an empty sequence, as in Python).
* Python `dict`s (which preserve insertion order) are association lists.
-/

/-- Python's `\s` character class, restricted to ASCII (the repository's
patterns and inputs are ASCII): space, tab, newline, vertical tab, form
feed, carriage return. -/
def pySpace (c : Char) : Bool :=
  c = ' ' || c = '\t' || c = '\n' || c = '\x0b' || c = '\x0c' || c = '\r'

/-- One atom of the pattern language used by every regex in the repository:
a literal character or `\s+`. -/
inductive RTok where
  | lit (c : Char) : RTok
  | wsPlus : RTok
deriving DecidableEq

/-- The literal characters of `s`, as pattern atoms. -/
def lits (s : String) : List RTok :=
  s.data.map RTok.lit

/-- Greedy continuation for `\s+` after at least one whitespace character has
been consumed: consume further whitespace as long as possible, backtracking
to the continuation `k` when the longer consumption fails. -/
def wsMunch (k : List Char → Option (List Char)) : List Char → Option (List Char)
  | [] => k []
  | c :: cs =>
    if pySpace c then
      match wsMunch k cs with
      | some r => some r
      | none => k (c :: cs)
    else k (c :: cs)

/-- Match the pattern at the head of the text; `some rest` returns the text
remaining after the matched portion (Python `re.match` at one position). -/
def matchAt : List RTok → List Char → Option (List Char)
  | [], cs => some cs
  | RTok.lit _ :: _, [] => none
  | RTok.lit c :: p, x :: cs => if x = c then matchAt p cs else none
  | RTok.wsPlus :: _, [] => none
  | RTok.wsPlus :: p, x :: cs => if pySpace x then wsMunch (matchAt p) cs else none

/-- Python `re.search(pattern, text) is not None`: does the pattern match at
some position of the text. -/
def re_search (p : List RTok) : List Char → Bool
  | [] => (matchAt p []).isSome
  | c :: cs => (matchAt p (c :: cs)).isSome || re_search p cs

/-- Worker for `re_sub` with explicit fuel; the fuel only bounds the
recursion depth (each step consumes at least one character of the text, so
`text.length` fuel is always enough, and the fuel-exhausted branch is
unreachable from `re_sub`). -/
def re_sub_fuel (p : List RTok) (r : List Char) : Nat → List Char → List Char
  | _, [] => if (matchAt p []).isSome then r else []
  | 0, cs => cs
  | fuel + 1, c :: cs =>
    match matchAt p (c :: cs) with
    | some rest =>
      if rest.length = cs.length + 1 then
        r ++ c :: re_sub_fuel p r fuel cs
      else r ++ re_sub_fuel p r fuel rest
    | none => c :: re_sub_fuel p r fuel cs

/-- Python `re.sub(pattern, replacement, text)`: replace every
non-overlapping occurrence, scanning left to right. -/
def re_sub (p : List RTok) (r : List Char) (text : List Char) : List Char :=
  re_sub_fuel p r text.length text

/-- Worker for `str_replace` with explicit fuel (as in `re_sub_fuel`, the
fuel-exhausted branch is unreachable when started with the text's length). -/
def str_replace_fuel (n : Char) (ns repl : List Char) : Nat → List Char → List Char
  | _, [] => []
  | 0, cs => cs
  | fuel + 1, c :: cs =>
    if c = n && ns.isPrefixOf cs then
      repl ++ str_replace_fuel n ns repl fuel (cs.drop ns.length)
    else c :: str_replace_fuel n ns repl fuel cs

/-- Python `text.replace(needle, repl)`: replace every non-overlapping
occurrence of a plain substring, left to right (with a non-empty needle,
which is the only way the repository calls it). -/
def str_replace (needle repl text : List Char) : List Char :=
  match needle with
  | [] => text
  | n :: ns => str_replace_fuel n ns repl text.length text

/-- Worker for `split_count`: the flag records whether the previous
character belonged to a word. -/
def count_words : Bool → List Char → Nat
  | _, [] => 0
  | inWord, c :: cs =>
    if pySpace c then count_words false cs
    else (if inWord then 0 else 1) + count_words true cs

/-- Python `len(text.split())`: the number of maximal whitespace-free runs. -/
def split_count (text : List Char) : Nat :=
  count_words false text

/-- A prompting tip (`tips` entries in `prompting_guides.py`); the nested
`example` dict is flattened into `example_before` / `example_after`
(`example` is a Lean keyword). -/
structure Tip where
  title : String
  description : String
  example_before : String
  example_after : String
deriving DecidableEq

/-- One rewrite rule (`transformations` entries): a pattern and a
replacement. Every replacement in the repository is the empty string. -/
structure Rule where
  pattern : List RTok
  replacement : List Char
deriving DecidableEq

/-- A prompting guide (`LLAMA_GUIDE` / `CLAUDE_GUIDE` / `GPT_GUIDE`). -/
structure Guide where
  name : String
  source : String
  url : String
  tips : List Tip
  transformations : List Rule
deriving DecidableEq

/-- Meta/Llama prompting guide (`LLAMA_GUIDE` in `prompting_guides.py`). -/
def LLAMA_GUIDE : Guide where
  name := "Llama"
  source := "Meta AI"
  url := "https://www.llama.com/docs/how-to-guides/prompting/"
  tips := [
    { title := "Be Clear and Concise",
      description := "Use clear, concise language in your prompts. Avoid jargon and technical terms that might confuse the model.",
      example_before := "Could you please kindly help me create a detailed analysis of the quarterly financial report that includes all of the important metrics and insights for the executive team, if you don't mind?",
      example_after := "Analyze quarterly financial report. Include key metrics and insights for executives." },
    { title := "Use Explicit Instructions",
      description := "Detailed, explicit instructions produce better results than open-ended prompts.",
      example_before := "Tell me about quantum computing.",
      example_after := "Explain quantum computing principles to me like I'm a computer science undergraduate. Focus on qubits, superposition, and quantum gates." },
    { title := "Use Stylistic Instructions",
      description := "You can control the style of response with explicit stylistic instructions.",
      example_before := "Write about climate change.",
      example_after := "Explain this to me like a topic on a children's educational network show teaching elementary students." },
    { title := "Apply Formatting Instructions",
      description := "Specify the format you want the answer in.",
      example_before := "List the top factors affecting climate change.",
      example_after := "List the top factors affecting climate change. Use bullet points." },
    { title := "Apply Chain of Thought",
      description := "For complex reasoning, ask the model to think step by step.",
      example_before := "What is 25 × 16 + 12 × 4?",
      example_after := "Calculate 25 × 16 + 12 × 4 step by step, showing your reasoning for each step." }
  ]
  transformations := [
    { pattern := lits "Could you please" ++ [RTok.wsPlus], replacement := [] },
    { pattern := lits "I would like you to" ++ [RTok.wsPlus], replacement := [] },
    { pattern := lits "If you don't mind," ++ [RTok.wsPlus], replacement := [] },
    { pattern := lits "It would be great if you could" ++ [RTok.wsPlus], replacement := [] },
    { pattern := lits "kindly" ++ [RTok.wsPlus], replacement := [] },
    { pattern := lits "Please" ++ [RTok.wsPlus], replacement := [] },
    { pattern := [RTok.wsPlus] ++ lits "if possible", replacement := [] },
    { pattern := lits "Can you" ++ [RTok.wsPlus], replacement := [] },
    { pattern := lits "Would you be able to" ++ [RTok.wsPlus], replacement := [] }
  ]

/-- Anthropic/Claude prompting guide (`CLAUDE_GUIDE` in `prompting_guides.py`). -/
def CLAUDE_GUIDE : Guide where
  name := "Claude"
  source := "Anthropic"
  url := "https://docs.anthropic.com/en/docs/build-with-claude/prompt-engineering/overview"
  tips := [
    { title := "Be Clear and Direct",
      description := "Be clear and specific about what you want Claude to do.",
      example_before := "I'm wondering if you might be able to tell me a bit about AI ethics?",
      example_after := "Explain the three most important principles of AI ethics." },
    { title := "Use Examples (Multishot Prompting)",
      description := "Include 3-5 diverse, relevant examples to show Claude exactly what you want.",
      example_before := "Analyze this customer feedback and categorize the issues.",
      example_after := "Analyze this customer feedback and categorize the issues. Here's an example:\n<example>\nInput: The new dashboard is a mess! It takes forever to load, and I can't find the export button. Fix this ASAP!\nCategory: UI/UX, Performance\nSentiment: Negative\nPriority: High\n</example>" },
    { title := "Let Claude Think (Chain of Thought)",
      description := "For complex problems, ask Claude to work through its reasoning step by step.",
      example_before := "Is 17077 a prime number?",
      example_after := "Think through whether 17077 is a prime number step by step." },
    { title := "Use XML Tags",
      description := "Structure your prompt with XML tags to clearly separate different components.",
      example_before := "Summarize the following text: Climate change is a global challenge...",
      example_after := "<context>Climate change is a global challenge...</context>\n<task>Summarize the above text in 3 bullet points.</task>" },
    { title := "Give Claude a Role (System Prompts)",
      description := "Assign Claude a specific role to frame its perspective and expertise.",
      example_before := "Explain how to create a REST API.",
      example_after := "You are an experienced software engineering mentor. Explain how to create a REST API to a junior developer." }
  ]
  transformations := [
    { pattern := lits "I'm wondering if you might be able to" ++ [RTok.wsPlus], replacement := [] },
    { pattern := lits "I was hoping you could" ++ [RTok.wsPlus], replacement := [] },
    { pattern := lits "Could you possibly" ++ [RTok.wsPlus], replacement := [] },
    { pattern := lits "If it's not too much trouble," ++ [RTok.wsPlus], replacement := [] },
    { pattern := lits "When you get a chance," ++ [RTok.wsPlus], replacement := [] }
  ]

/-- OpenAI/GPT prompting guide (`GPT_GUIDE` in `prompting_guides.py`). -/
def GPT_GUIDE : Guide where
  name := "GPT"
  source := "OpenAI"
  url := "https://platform.openai.com/docs/guides/prompt-engineering"
  tips := [
    { title := "Write Clear and Specific Instructions",
      description := "Use clear and specific instructions, and be explicit about what you want.",
      example_before := "Tell me about France.",
      example_after := "Provide a brief overview of France, including its geography, population, government, and two major historical events." },
    { title := "Use Delimiters",
      description := "Use delimiters to clearly indicate distinct parts of the input.",
      example_before := "Summarize the text: France is a country in Western Europe...",
      example_after := "Summarize the text delimited by triple backticks:\n```France is a country in Western Europe...```" },
    { title := "Use Few-Shot Prompting",
      description := "Provide examples of successful executions of the task you want performed.",
      example_before := "Classify this review: 'The food was amazing!'",
      example_after := "Classify the sentiment of the following reviews as positive, negative, or neutral.\n\nReview: 'The service was terrible.'\nSentiment: negative\n\nReview: 'The food was amazing!'\nSentiment:" },
    { title := "Specify the Steps",
      description := "Break down complex tasks into a sequence of steps.",
      example_before := "Write a blog post about renewable energy.",
      example_after := "Write a blog post about renewable energy by following these steps:\n1. Start with an attention-grabbing introduction\n2. Explain what renewable energy is\n3. Discuss 3 common types of renewable energy\n4. Provide statistics on renewable energy adoption\n5. Conclude with future prospects" },
    { title := "Ask the Model to Evaluate Its Response",
      description := "Ask the model to check whether its response meets the requirements.",
      example_before := "Solve this math problem: If x² + 5x + 6 = 0, what is x?",
      example_after := "Solve this math problem: If x² + 5x + 6 = 0, what is x? After providing your solution, verify that your answer is correct by substituting it back into the original equation." }
  ]
  transformations := [
    { pattern := lits "Can you" ++ [RTok.wsPlus], replacement := [] },
    { pattern := lits "Please" ++ [RTok.wsPlus], replacement := [] },
    { pattern := lits "I'd like you to" ++ [RTok.wsPlus], replacement := [] },
    { pattern := lits "Could you" ++ [RTok.wsPlus], replacement := [] },
    { pattern := lits "Would you mind" ++ [RTok.wsPlus], replacement := [] }
  ]

/-- Python `d[k]` / `d.get(k)` on an insertion-ordered dict embedded as an
association list: the value at the first matching key. -/
def dictGet (k : String) : List (String × α) → Option α
  | [] => none
  | (a, v) :: rest => if k = a then some v else dictGet k rest

/-- Python `k in d`. -/
def dict_contains (k : String) (d : List (String × α)) : Bool :=
  (dictGet k d).isSome

/-- `PROMPTING_GUIDES` in `prompting_guides.py`: guide key to guide
("openai" is an alias entry for the GPT guide). -/
def PROMPTING_GUIDES : List (String × Guide) :=
  [("llama", LLAMA_GUIDE),
   ("claude", CLAUDE_GUIDE),
   ("gpt", GPT_GUIDE),
   ("openai", GPT_GUIDE)]

/-- `MODEL_TO_GUIDE` in `prompting_guides.py`: concrete model name to guide
key, in the dict's insertion order. -/
def MODEL_TO_GUIDE : List (String × String) :=
  [("llama-2", "llama"),
   ("llama-3", "llama"),
   ("llama-2-7b", "llama"),
   ("llama-2-13b", "llama"),
   ("llama-2-70b", "llama"),
   ("llama-3-8b", "llama"),
   ("llama-3-70b", "llama"),
   ("claude-3-opus", "claude"),
   ("claude-3-sonnet", "claude"),
   ("claude-3-haiku", "claude"),
   ("claude-3-5-sonnet", "claude"),
   ("claude-2", "claude"),
   ("gpt-3.5-turbo", "gpt"),
   ("gpt-4", "gpt"),
   ("gpt-4o", "gpt"),
   ("gpt-4-turbo", "gpt"),
   ("gpt-3.5", "gpt")]

/-- Python `model_name.lower()` (character-wise lowercasing). -/
def lower (s : String) : String :=
  String.mk (s.data.map Char.toLower)

/-- Python `key.startswith(pat)`. -/
def startswith (key pat : String) : Bool :=
  pat.data.isPrefixOf key.data

/-- The `for prefix, guide in MODEL_TO_GUIDE.items()` loop of
`get_guide_for_model`: the guide key of the first alias entry whose key is a
string-prefix of `model_key`, in the table's insertion order. -/
def first_prefix_guide (model_key : String) : List (String × String) → Option String
  | [] => none
  | (p, g) :: rest =>
    if startswith model_key p then some g else first_prefix_guide model_key rest

/-- `get_guide_for_model` in `prompting_guides.py`. The Python dict
accesses `PROMPTING_GUIDES[...]` on the alias and prefix tiers are embedded
as `dictGet` (every guide key stored in `MODEL_TO_GUIDE` is present in
`PROMPTING_GUIDES`, so the `KeyError` branch is unreachable). -/
def get_guide_for_model (model_name : String) : Option Guide :=
  let model_key := lower model_name
  if dict_contains model_key PROMPTING_GUIDES then
    dictGet model_key PROMPTING_GUIDES
  else
    match dictGet model_key MODEL_TO_GUIDE with
    | some guide_key => dictGet guide_key PROMPTING_GUIDES
    | none =>
      match first_prefix_guide model_key MODEL_TO_GUIDE with
      | some g => dictGet g PROMPTING_GUIDES
      | none => none

/-- One record of the `transformations` trace built by
`GuideBasedOptimizer.optimize`: the fired rule's pattern and replacement and
the text before and after its substitution. -/
structure Transformation where
  pattern : List RTok
  replacement : List Char
  before : List Char
  after : List Char
deriving DecidableEq

/-- The dict returned by `GuideBasedOptimizer.optimize`. -/
structure OptimizeResult where
  original : List Char
  optimized : List Char
  guide_name : Option String
  guide_source : Option String
  transformations : List Transformation
  tip : Option Tip
deriving DecidableEq

/-- `GuideBasedOptimizer.get_random_tip`: `None` without a guide, otherwise
`random.choice(self.guide["tips"])`, which raises `IndexError` on an empty
tip list; the random draw is embedded as selection of index
`rand % length` by the injected random source `rand`. -/
def get_random_tip (guide : Option Guide) (rand : Nat) : Except String (Option Tip) :=
  match guide with
  | none => Except.ok none
  | some g =>
    if h : g.tips.length = 0 then
      Except.error "IndexError: Cannot choose from an empty sequence"
    else
      Except.ok (some (g.tips.get ⟨rand % g.tips.length, Nat.mod_lt _ (Nat.pos_of_ne_zero h)⟩))

/-- One iteration of the rule loop of `GuideBasedOptimizer.optimize` as a
state transformer: substitute if the pattern matches, otherwise leave the
text unchanged. -/
def rule_step (t : Rule) (text : List Char) : List Char :=
  if re_search t.pattern text then re_sub t.pattern t.replacement text else text

/-- The `for transform in self.guide["transformations"]` loop of
`GuideBasedOptimizer.optimize` (optimizer.py lines 70-91): a single
left-to-right pass; each rule is searched against the current text, its
substitution produces the next current text, and a trace record is appended
exactly when the substitution changed the text. Returns the final text and
the trace. -/
def apply_transforms : List Rule → List Char → List Char × List Transformation
  | [], optimized => (optimized, [])
  | t :: rest, optimized =>
    if re_search t.pattern optimized then
      let next := re_sub t.pattern t.replacement optimized
      let r := apply_transforms rest next
      if optimized ≠ next then
        (r.1, { pattern := t.pattern, replacement := t.replacement,
                before := optimized, after := next } :: r.2)
      else (r.1, r.2)
    else apply_transforms rest optimized

/-- `GuideBasedOptimizer.optimize`: identity result with null guide fields
when no guide resolved; otherwise the rule pass followed by the tip draw. -/
def optimize (guide : Option Guide) (prompt_text : List Char) (rand : Nat) :
    Except String OptimizeResult :=
  match guide with
  | none =>
    Except.ok { original := prompt_text, optimized := prompt_text,
                guide_name := none, guide_source := none,
                transformations := [], tip := none }
  | some g =>
    let r := apply_transforms g.transformations prompt_text
    match get_random_tip (some g) rand with
    | Except.error e => Except.error e
    | Except.ok tip =>
      Except.ok { original := prompt_text, optimized := r.1,
                  guide_name := some g.name, guide_source := some g.source,
                  transformations := r.2, tip := tip }

/-- Second definition of the resolver, written from the specification's
words (spec section 4.2, the four-tier precedence list), to be compared with
`get_guide_for_model` for the refinement claim C1. -/
def resolve_spec (model_identifier : String) : Option Guide :=
  let k := lower model_identifier
  match dictGet k PROMPTING_GUIDES with
  | some g => some g
  | none =>
    match dictGet k MODEL_TO_GUIDE with
    | some guide_key => dictGet guide_key PROMPTING_GUIDES
    | none =>
      match first_prefix_guide k MODEL_TO_GUIDE with
      | some guide_key => dictGet guide_key PROMPTING_GUIDES
      | none => none

/-- The transformations trace as the specification words it (spec section
4.3), to be compared with the trace built by `optimize` for claim C3: walk
the rules left to right and record a rule exactly when its application
changed the text (a rule that matches but leaves the text identical is not
recorded). -/
def trace_spec : List Rule → List Char → List Transformation
  | [], _ => []
  | t :: rest, text =>
    if text = rule_step t text then trace_spec rest (rule_step t text)
    else
      { pattern := t.pattern, replacement := t.replacement,
        before := text, after := rule_step t text } :: trace_spec rest (rule_step t text)

/-- Chaining of a transformations trace from a start text to a final text
(claim C10): an empty trace forces `final = start`; otherwise the first
record starts at `start`, each record's after-snapshot is the next record's
before-snapshot, and the last record's after-snapshot is `final`. -/
def chained (start : List Char) : List Transformation → List Char → Prop
  | [], final => final = start
  | tr :: rest, final => tr.before = start ∧ chained tr.after rest final

/-- The generic branch of `BaseModel.optimize_prompt` (no guide): remove
three hardcoded courtesy phrases by regex substitution, in order. -/
def generic_optimize (prompt : List Char) : List Char :=
  re_sub (lits "I would like you to" ++ [RTok.wsPlus]) []
    (re_sub (lits "Could you" ++ [RTok.wsPlus]) []
      (re_sub (lits "Please" ++ [RTok.wsPlus]) [] prompt))

/-- `BaseModel.optimize_prompt`: guide-based optimization when the bound
optimizer has a guide, otherwise the generic substitutions. -/
def optimize_prompt (guide : Option Guide) (prompt : List Char) (rand : Nat) :
    Except String (List Char) :=
  match guide with
  | some g =>
    match optimize (some g) prompt rand with
    | Except.error e => Except.error e
    | Except.ok res => Except.ok res.optimized
  | none => Except.ok (generic_optimize prompt)

/-- The dict returned by `BaseModel.get_optimization_details`. Token counts
are `Nat` (a token counter returns a non-negative count); `saved_tokens` is
the Python int difference, `saved_percentage` the exact rational value of
the float expression `saved / original * 100`. -/
structure DetailsResult where
  original : List Char
  optimized : List Char
  guide_name : Option String
  guide_source : Option String
  transformations : List Transformation
  tip : Option Tip
  original_tokens : Nat
  optimized_tokens : Nat
  saved_tokens : Int
  saved_percentage : ℚ
  model : String
deriving DecidableEq

/-- `BaseModel.get_optimization_details`. The abstract `self.count_tokens`
of the bound model is the parameter `count_tokens`; the bound
`self.guide_optimizer.guide` is `get_guide_for_model model_name`, as set by
`BaseModel.__init__` / `GuideBasedOptimizer.__init__`. -/
def get_optimization_details (count_tokens : List Char → Nat) (model_name : String)
    (prompt : List Char) (rand : Nat) : Except String DetailsResult :=
  let guide := get_guide_for_model model_name
  if guide.isSome then
    match optimize guide prompt rand with
    | Except.error e => Except.error e
    | Except.ok res =>
      let original_count := count_tokens prompt
      let optimized_count := count_tokens res.optimized
      let saved_tokens : Int := (original_count : Int) - (optimized_count : Int)
      let saved_percentage : ℚ :=
        if original_count > 0 then (saved_tokens : ℚ) / (original_count : ℚ) * 100 else 0
      Except.ok { original := res.original, optimized := res.optimized,
                  guide_name := res.guide_name, guide_source := res.guide_source,
                  transformations := res.transformations, tip := res.tip,
                  original_tokens := original_count, optimized_tokens := optimized_count,
                  saved_tokens := saved_tokens, saved_percentage := saved_percentage,
                  model := model_name }
  else
    match optimize_prompt guide prompt rand with
    | Except.error e => Except.error e
    | Except.ok optimized =>
      let original_count := count_tokens prompt
      let optimized_count := count_tokens optimized
      let saved_tokens : Int := (original_count : Int) - (optimized_count : Int)
      let saved_percentage : ℚ :=
        if original_count > 0 then (saved_tokens : ℚ) / (original_count : ℚ) * 100 else 0
      Except.ok { original := prompt, optimized := optimized,
                  guide_name := none, guide_source := none,
                  transformations := [], tip := none,
                  original_tokens := original_count, optimized_tokens := optimized_count,
                  saved_tokens := saved_tokens, saved_percentage := saved_percentage,
                  model := model_name }

/-- The dict returned by `ScaleDown.mock_optimize` in `api.py`. The base
dict has no guide keys; their absence is embedded as `none` in the four
guide fields, which the guide branch overwrites. -/
structure MockResult where
  original : List Char
  optimized : List Char
  original_tokens : Nat
  optimized_tokens : Nat
  saved_tokens : Int
  saved_percentage : ℚ
  model : String
  guide_name : Option String
  guide_source : Option String
  transformations : List Transformation
  tip : Option Tip
deriving DecidableEq

/-- `ScaleDown.mock_optimize` (embedded per its evident intent as a method
of `ScaleDown`: as committed, `api.py` mis-indents the `def` and the file
does not parse). `self.current_model` is the model-identifier string stored
by `select_model`, or `none` before any selection; Python falsiness of
`None` and `""` guards the guide branch. Token counts are the word-count
proxy `len(text.split())`. -/
def mock_optimize (current_model : Option String) (prompt : List Char) (rand : Nat) :
    Except String MockResult :=
  let optimized := str_replace "Could you ".data []
    (str_replace "kindly ".data [] (str_replace "Please ".data [] prompt))
  let original_count := split_count prompt
  let optimized_count := split_count optimized
  let saved_tokens : Int := (original_count : Int) - (optimized_count : Int)
  let saved_percentage : ℚ :=
    if original_count > 0 then (saved_tokens : ℚ) / (original_count : ℚ) * 100 else 0
  let base : MockResult :=
    { original := prompt, optimized := optimized,
      original_tokens := original_count, optimized_tokens := optimized_count,
      saved_tokens := saved_tokens, saved_percentage := saved_percentage,
      model := "mock-model",
      guide_name := none, guide_source := none, transformations := [], tip := none }
  match current_model with
  | none => Except.ok base
  | some m =>
    if m = "" then Except.ok base
    else
      match get_guide_for_model m with
      | none => Except.ok base
      | some g =>
        match optimize (some g) prompt rand with
        | Except.error e => Except.error e
        | Except.ok gr =>
          let optimized_count2 := split_count gr.optimized
          let saved_tokens2 : Int := (original_count : Int) - (optimized_count2 : Int)
          let saved_percentage2 : ℚ :=
            if original_count > 0 then (saved_tokens2 : ℚ) / (original_count : ℚ) * 100 else 0
          Except.ok { base with
            optimized := gr.optimized,
            guide_name := gr.guide_name, guide_source := gr.guide_source,
            transformations := gr.transformations, tip := gr.tip,
            optimized_tokens := optimized_count2,
            saved_tokens := saved_tokens2, saved_percentage := saved_percentage2 }

/-- `ScaleDown.optimize` in `api.py` (embedded per the evident intent that
`mock_optimize` is a method, see `mock_optimize`). The guard raises
`ValueError` when `self.current_model` is `None` or empty. Past the guard
the method takes the `hasattr(self, 'mock_optimize')` branch, computes the
mock result, and then evaluates `self.current_model.model_name`; since
`select_model` stores the identifier string itself, that attribute access
raises `AttributeError` on every run that reaches it. -/
def ScaleDown_optimize (current_model : Option String) (prompt : List Char) (rand : Nat) :
    Except String MockResult :=
  if current_model = none ∨ current_model = some "" then
    Except.error "ValueError: No model selected. Call select_model() first."
  else
    match mock_optimize current_model prompt rand with
    | Except.error e => Except.error e
    | Except.ok _ =>
      Except.error "AttributeError: str object has no attribute model_name"

/-- `ScaleDown.compress_via_api` in `api.py`: the same `ValueError` guard,
then the network call (abstracted as the `api_result` parameter, since the
HTTP client is outside the core), falling back to `mock_optimize` when the
API call fails. -/
def compress_via_api (current_model : Option String) (prompt : List Char)
    (api_result : Except String MockResult) (rand : Nat) : Except String MockResult :=
  if current_model = none ∨ current_model = some "" then
    Except.error "ValueError: No model selected. Call select_model() first."
  else
    match api_result with
    | Except.ok r => Except.ok r
    | Except.error _ => mock_optimize current_model prompt rand


/-- A one-rule, one-tip guide used by the concrete witnesses below. -/
def SAMPLE_GUIDE : Guide where
  name := "Sample"
  source := "Test"
  url := ""
  tips := [{ title := "t", description := "d", example_before := "b", example_after := "a" }]
  transformations := [{ pattern := lits "Please" ++ [RTok.wsPlus], replacement := [] }]

/-- A rule whose pattern does not match the current text is skipped
without any effect. -/
theorem apply_transforms_skip (t : Rule) (post : List Rule) (text : List Char)
    (h : ¬ re_search t.pattern text = true) :
    apply_transforms (t :: post) text = apply_transforms post text := by
  simp [apply_transforms, h]

/-- Unfolding equation of one loop iteration when the pattern matched. -/
theorem apply_transforms_cons_search (t : Rule) (rest : List Rule) (text : List Char)
    (h : re_search t.pattern text = true) :
    apply_transforms (t :: rest) text =
      ((apply_transforms rest (re_sub t.pattern t.replacement text)).1,
       (if text = re_sub t.pattern t.replacement text then [] else
          [{ pattern := t.pattern, replacement := t.replacement,
             before := text, after := re_sub t.pattern t.replacement text }]) ++
         (apply_transforms rest (re_sub t.pattern t.replacement text)).2) := by
  simp only [apply_transforms, h, if_true]
  by_cases h2 : text = re_sub t.pattern t.replacement text
  · rw [if_neg (not_not_intro h2), if_pos h2, List.nil_append]
  · rw [if_pos h2, if_neg h2, List.singleton_append]

/-- Unfolding equation of one loop iteration, phrased through `rule_step`:
the loop continues on the stepped text and the trace gains a record exactly
when the step changed the text. -/
theorem apply_transforms_cons (t : Rule) (rest : List Rule) (text : List Char) :
    apply_transforms (t :: rest) text =
      ((apply_transforms rest (rule_step t text)).1,
       (if text = rule_step t text then [] else
          [{ pattern := t.pattern, replacement := t.replacement,
             before := text, after := rule_step t text }]) ++
         (apply_transforms rest (rule_step t text)).2) := by
  by_cases h : re_search t.pattern text
  · have hs : rule_step t text = re_sub t.pattern t.replacement text := if_pos h
    rw [hs, apply_transforms_cons_search t rest text h]
  · have hs : rule_step t text = text := if_neg h
    rw [hs, apply_transforms_skip t rest text h, if_pos rfl, List.nil_append]

/-- The final text of the rule pass is the left fold of single rule steps. -/
theorem apply_transforms_fst_foldl (rules : List Rule) (text : List Char) :
    (apply_transforms rules text).1 = rules.foldl (fun acc t => rule_step t acc) text := by
  induction rules generalizing text with
  | nil => rfl
  | cons t rest ih =>
    rw [apply_transforms_cons, List.foldl_cons]
    exact ih _

/-- The rule pass over a concatenation is the pass over the first part
followed by the pass over the second part started from the first part's
output, traces concatenated. -/
theorem apply_transforms_append (l₁ l₂ : List Rule) (text : List Char) :
    apply_transforms (l₁ ++ l₂) text =
      ((apply_transforms l₂ (apply_transforms l₁ text).1).1,
       (apply_transforms l₁ text).2 ++ (apply_transforms l₂ (apply_transforms l₁ text).1).2) := by
  induction l₁ generalizing text with
  | nil => simp [apply_transforms]
  | cons t rest ih =>
    rw [List.cons_append, apply_transforms_cons, apply_transforms_cons, ih]
    simp [List.append_assoc]

/-- The trace of the rule pass coincides with the specification-side
`trace_spec` (records keyed purely on textual change). -/
theorem apply_transforms_trace (rules : List Rule) (text : List Char) :
    (apply_transforms rules text).2 = trace_spec rules text := by
  induction rules generalizing text with
  | nil => rfl
  | cons t rest ih =>
    rw [apply_transforms_cons]
    by_cases h2 : text = rule_step t text
    · rw [trace_spec, if_pos h2, if_pos h2, List.nil_append]
      exact ih _
    · rw [trace_spec, if_neg h2, if_neg h2, List.singleton_append]
      exact congrArg _ (ih _)

/-- Every record of the rule pass's trace shows an actual change. -/
theorem apply_transforms_mem_ne (rules : List Rule) (text : List Char)
    (tr : Transformation) (h : tr ∈ (apply_transforms rules text).2) :
    tr.before ≠ tr.after := by
  induction rules generalizing text with
  | nil => simp [apply_transforms] at h
  | cons t rest ih =>
    rw [apply_transforms_cons] at h
    by_cases h2 : text = rule_step t text
    · rw [if_pos h2, List.nil_append] at h
      exact ih _ h
    · rw [if_neg h2, List.singleton_append] at h
      rcases List.mem_cons.mp h with h | h
      · subst h; exact h2
      · exact ih _ h

/-- The trace of the rule pass chains from the input text to the output
text. -/
theorem apply_transforms_chained (rules : List Rule) (text : List Char) :
    chained text (apply_transforms rules text).2 (apply_transforms rules text).1 := by
  induction rules generalizing text with
  | nil => exact rfl
  | cons t rest ih =>
    rw [apply_transforms_cons]
    by_cases h2 : text = rule_step t text
    · rw [if_pos h2, List.nil_append]
      rw [← h2]
      exact ih _
    · rw [if_neg h2, List.singleton_append]
      exact ⟨rfl, ih _⟩

/-- Every guide stored in the catalog is one of the three guide records. -/
theorem dictGet_catalog_cases (k : String) (g : Guide)
    (h : dictGet k PROMPTING_GUIDES = some g) :
    g = LLAMA_GUIDE ∨ g = CLAUDE_GUIDE ∨ g = GPT_GUIDE := by
  simp only [PROMPTING_GUIDES, dictGet] at h
  split_ifs at h <;> simp_all

/-- Every successfully resolved guide is one of the three guide records
(each return path of `get_guide_for_model` is a catalog lookup). -/
theorem get_guide_cases (m : String) (g : Guide) (h : get_guide_for_model m = some g) :
    g = LLAMA_GUIDE ∨ g = CLAUDE_GUIDE ∨ g = GPT_GUIDE := by
  simp only [get_guide_for_model] at h
  by_cases h1 : dict_contains (lower m) PROMPTING_GUIDES
  · rw [if_pos h1] at h
    exact dictGet_catalog_cases _ _ h
  · rw [if_neg h1] at h
    cases h2 : dictGet (lower m) MODEL_TO_GUIDE with
    | some gk =>
      rw [h2] at h
      exact dictGet_catalog_cases _ _ h
    | none =>
      rw [h2] at h
      cases h3 : first_prefix_guide (lower m) MODEL_TO_GUIDE with
      | some gk =>
        rw [h3] at h
        exact dictGet_catalog_cases _ _ h
      | none => rw [h3] at h; exact absurd h (by simp)

/-- Every resolved guide carries exactly five tips. -/
theorem resolved_tips_length (m : String) (g : Guide)
    (h : get_guide_for_model m = some g) : g.tips.length = 5 := by
  rcases get_guide_cases m g h with h1 | h1 | h1 <;> subst h1 <;> rfl

/-- With a non-empty tip list the tip draw succeeds and returns a member of
the list. -/
theorem get_random_tip_ok (g : Guide) (rand : Nat) (h : ¬ g.tips.length = 0) :
    ∃ t, get_random_tip (some g) rand = Except.ok (some t) ∧ t ∈ g.tips := by
  simp only [get_random_tip, dif_neg h]
  exact ⟨_, rfl, List.get_mem _ _ _⟩

/-- Whenever `optimize` with a guide returns a result, its text and trace
fields come from the rule pass and its guide fields from the guide. -/
theorem optimize_ok_fields (g : Guide) (text : List Char) (rand : Nat)
    (res : OptimizeResult) (h : optimize (some g) text rand = Except.ok res) :
    res.original = text ∧
    res.optimized = (apply_transforms g.transformations text).1 ∧
    res.transformations = (apply_transforms g.transformations text).2 ∧
    res.guide_name = some g.name ∧ res.guide_source = some g.source := by
  simp only [optimize] at h
  cases h2 : get_random_tip (some g) rand with
  | error e => rw [h2] at h; cases h
  | ok tip =>
    rw [h2] at h
    injection h with h
    subst h
    exact ⟨rfl, rfl, rfl, rfl, rfl⟩

/-- With a non-empty tip list, `optimize` with a guide succeeds outright and
its tip is drawn from the guide's tip list. -/
theorem optimize_resolved (g : Guide) (text : List Char) (rand : Nat)
    (h : ¬ g.tips.length = 0) :
    ∃ t, t ∈ g.tips ∧ optimize (some g) text rand =
      Except.ok { original := text,
                  optimized := (apply_transforms g.transformations text).1,
                  guide_name := some g.name, guide_source := some g.source,
                  transformations := (apply_transforms g.transformations text).2,
                  tip := some t } := by
  obtain ⟨t, ht, hmem⟩ := get_random_tip_ok g rand h
  refine ⟨t, hmem, ?_⟩
  simp only [optimize, ht]

/-- C1: for every model identifier, `get_guide_for_model` lowercases the
identifier and decides by strict precedence with first match winning —
direct catalog key, else exact alias, else first alias key (in insertion
order) that is a string-prefix, else `None` — which is exactly the
spec-side `resolve_spec`; the empty string resolves to `None`; and a direct
catalog key always wins (beating any colliding alias entry). -/
theorem guide_resolution_precedence :
    (∀ model_name : String, get_guide_for_model model_name = resolve_spec model_name) ∧
    get_guide_for_model "" = none ∧
    (∀ model_name : String,
        dict_contains (lower model_name) PROMPTING_GUIDES = true →
        get_guide_for_model model_name = dictGet (lower model_name) PROMPTING_GUIDES) := by
  refine ⟨?_, by decide, ?_⟩
  · intro m
    simp only [get_guide_for_model, resolve_spec, dict_contains]
    by_cases hs : (dictGet (lower m) PROMPTING_GUIDES).isSome
    · obtain ⟨g, hg⟩ := Option.isSome_iff_exists.mp hs
      simp only [hg]
      simp
    · simp only [Option.not_isSome_iff_eq_none.mp hs]
      simp
  · intro m hm
    simp only [get_guide_for_model]
    rw [if_pos hm]

/-- C1 witness: the direct catalog key "GPT" resolves by the direct tier. -/
theorem guide_resolution_precedence_witness :
    get_guide_for_model "GPT" = dictGet (lower "GPT") PROMPTING_GUIDES :=
  guide_resolution_precedence.2.2 "GPT" (by decide)

/-- C2: `optimize` makes exactly one linear left-to-right pass: its
optimized text is the left fold of single rule steps over the rule list and
its trace is that of the single pass (first conjunct); the pass over a
concatenation of rule lists is the pass over the first part followed by the
pass over the second part started from the first part's output — later rules
see the output of earlier rules and no earlier rule is re-applied after a
later one fires (second conjunct); and a rule whose pattern does not match
the text produced by the rules before it contributes nothing at all, even if
text produced only by later rules would match it — no fixed-point iteration
(third conjunct). -/
theorem single_pass_rule_application :
    (∀ (g : Guide) (text : List Char) (rand : Nat) (res : OptimizeResult),
        optimize (some g) text rand = Except.ok res →
        res.optimized = g.transformations.foldl (fun acc t => rule_step t acc) text ∧
        res.transformations = (apply_transforms g.transformations text).2) ∧
    (∀ (l₁ l₂ : List Rule) (text : List Char),
        apply_transforms (l₁ ++ l₂) text =
          ((apply_transforms l₂ (apply_transforms l₁ text).1).1,
           (apply_transforms l₁ text).2 ++
             (apply_transforms l₂ (apply_transforms l₁ text).1).2)) ∧
    (∀ (pre : List Rule) (t : Rule) (post : List Rule) (text : List Char),
        re_search t.pattern (apply_transforms pre text).1 = false →
        apply_transforms (pre ++ t :: post) text = apply_transforms (pre ++ post) text) := by
  refine ⟨?_, apply_transforms_append, ?_⟩
  · intro g text rand res h
    obtain ⟨-, h2, h3, -, -⟩ := optimize_ok_fields g text rand res h
    exact ⟨by rw [h2, apply_transforms_fst_foldl], h3⟩
  · intro pre t post text hfalse
    rw [apply_transforms_append,
        apply_transforms_skip t post _ (by simp [hfalse]),
        ← apply_transforms_append]

/-- C2 witness: the append decomposition at a concrete rule split. -/
theorem single_pass_rule_application_witness :
    apply_transforms
        ([{ pattern := lits "a", replacement := [] }] ++
          [{ pattern := lits "b", replacement := [] }]) ("ab".data) =
      ((apply_transforms [{ pattern := lits "b", replacement := [] }]
          (apply_transforms [{ pattern := lits "a", replacement := [] }] "ab".data).1).1,
       (apply_transforms [{ pattern := lits "a", replacement := [] }] "ab".data).2 ++
         (apply_transforms [{ pattern := lits "b", replacement := [] }]
           (apply_transforms [{ pattern := lits "a", replacement := [] }] "ab".data).1).2) :=
  single_pass_rule_application.2.1 [{ pattern := lits "a", replacement := [] }]
    [{ pattern := lits "b", replacement := [] }] ("ab".data)

/-- C3: the trace returned by `optimize` contains exactly the rules whose
substitution changed the text, in application order, with the pattern,
replacement and the before and after snapshots of each step (it equals the
spec-side `trace_spec`); a rule that matches but leaves the text identical
is not recorded, so every record shows a real change. -/
theorem trace_records_changed_rules :
    (∀ (g : Guide) (text : List Char) (rand : Nat) (res : OptimizeResult),
        optimize (some g) text rand = Except.ok res →
        res.transformations = trace_spec g.transformations text) ∧
    (∀ (g : Guide) (text : List Char) (rand : Nat) (res : OptimizeResult)
        (tr : Transformation), optimize (some g) text rand = Except.ok res →
        tr ∈ res.transformations → tr.before ≠ tr.after) := by
  constructor
  · intro g text rand res h
    rw [(optimize_ok_fields g text rand res h).2.2.1, apply_transforms_trace]
  · intro g text rand res tr h hmem
    rw [(optimize_ok_fields g text rand res h).2.2.1] at hmem
    exact apply_transforms_mem_ne _ _ _ hmem

/-- C3 witness: the one recorded transformation of the sample guide on a
concrete prompt changed the text. -/
theorem trace_records_changed_rules_witness :
    ("Please help".data : List Char) ≠ "help".data :=
  trace_records_changed_rules.2 SAMPLE_GUIDE ("Please help".data) 0
    { original := "Please help".data,
      optimized := "help".data,
      guide_name := some "Sample",
      guide_source := some "Test",
      transformations := [{ pattern := lits "Please" ++ [RTok.wsPlus],
                            replacement := [],
                            before := "Please help".data,
                            after := "help".data }],
      tip := some { title := "t", description := "d",
                    example_before := "b", example_after := "a" } }
    { pattern := lits "Please" ++ [RTok.wsPlus], replacement := [],
      before := "Please help".data, after := "help".data }
    rfl (by decide)

/-- C4: for a model identifier with no catalog entry, no alias entry and no
prefix match, `optimize` returns the original prompt unchanged with an empty
trace and null guide fields and tip — a successful result, never an error. -/
theorem unmatched_identifier_noop (model_name : String) (text : List Char) (rand : Nat)
    (h1 : dict_contains (lower model_name) PROMPTING_GUIDES = false)
    (h2 : dictGet (lower model_name) MODEL_TO_GUIDE = none)
    (h3 : first_prefix_guide (lower model_name) MODEL_TO_GUIDE = none) :
    optimize (get_guide_for_model model_name) text rand =
      Except.ok { original := text,
                  optimized := text,
                  guide_name := none,
                  guide_source := none,
                  transformations := [],
                  tip := none } := by
  have hg : get_guide_for_model model_name = none := by
    simp only [get_guide_for_model, h2, h3]
    rw [if_neg (by simp [h1])]
  rw [hg]
  rfl

/-- C4 witness: a concrete unmatched identifier. -/
theorem unmatched_identifier_noop_witness :
    optimize (get_guide_for_model "mistral-7b") ("Hello".data) 0 =
      Except.ok { original := "Hello".data,
                  optimized := "Hello".data,
                  guide_name := none,
                  guide_source := none,
                  transformations := [],
                  tip := none } :=
  unmatched_identifier_noop "mistral-7b" ("Hello".data) 0 (by decide) (by decide) (by decide)

/-- The guarded percentage is zero whenever the original count is zero. -/
theorem ite_percent_zero (oc : Nat) (q : ℚ) (h0 : oc = 0) :
    (if oc > 0 then q else 0) = 0 := by
  rw [if_neg (by omega)]

/-- C5: in every result of `get_optimization_details` and of
`mock_optimize`, `saved_tokens` equals `original_tokens - optimized_tokens`
and `saved_percentage` is zero whenever `original_tokens` is zero (the
guard, not a division, produces the zero, so no division by zero is ever
attempted). -/
theorem token_accounting_invariant :
    (∀ (count_tokens : List Char → Nat) (model_name : String) (prompt : List Char)
        (rand : Nat) (res : DetailsResult),
        get_optimization_details count_tokens model_name prompt rand = Except.ok res →
        res.saved_tokens = (res.original_tokens : Int) - (res.optimized_tokens : Int) ∧
        (res.original_tokens = 0 → res.saved_percentage = 0)) ∧
    (∀ (current_model : Option String) (prompt : List Char) (rand : Nat) (res : MockResult),
        mock_optimize current_model prompt rand = Except.ok res →
        res.saved_tokens = (res.original_tokens : Int) - (res.optimized_tokens : Int) ∧
        (res.original_tokens = 0 → res.saved_percentage = 0)) := by
  constructor
  · intro count_tokens model_name prompt rand res h
    simp only [get_optimization_details] at h
    split at h
    · split at h
      · simp at h
      · injection h with h
        subst h
        exact ⟨rfl, fun h0 => ite_percent_zero _ _ h0⟩
    · split at h
      · simp at h
      · injection h with h
        subst h
        exact ⟨rfl, fun h0 => ite_percent_zero _ _ h0⟩
  · intro current_model prompt rand res h
    rcases current_model with _ | m
    · simp only [mock_optimize] at h
      injection h with h
      subst h
      exact ⟨rfl, fun h0 => ite_percent_zero _ _ h0⟩
    · simp only [mock_optimize] at h
      by_cases hm : m = ""
      · rw [if_pos hm] at h
        injection h with h
        subst h
        exact ⟨rfl, fun h0 => ite_percent_zero _ _ h0⟩
      · rw [if_neg hm] at h
        split at h
        · injection h with h
          subst h
          exact ⟨rfl, fun h0 => ite_percent_zero _ _ h0⟩
        · split at h
          · simp at h
          · injection h with h
            subst h
            exact ⟨rfl, fun h0 => ite_percent_zero _ _ h0⟩

/-- C5 witness: the invariant instantiated on the empty prompt with the
word-count proxy and an unknown model (both token counts zero). -/
theorem token_accounting_invariant_witness :
    ((0 : Int) = ((0 : Nat) : Int) - ((0 : Nat) : Int) ∧ ((0 : Nat) = 0 → (0 : ℚ) = 0)) ∧
    ((0 : Int) = ((0 : Nat) : Int) - ((0 : Nat) : Int) ∧ ((0 : Nat) = 0 → (0 : ℚ) = 0)) :=
  ⟨token_accounting_invariant.1 split_count "zzz" [] 0
      { original := [], optimized := [], guide_name := none, guide_source := none,
        transformations := [], tip := none, original_tokens := 0, optimized_tokens := 0,
        saved_tokens := 0, saved_percentage := 0, model := "zzz" } rfl,
   token_accounting_invariant.2 none [] 0
      { original := [], optimized := [], original_tokens := 0, optimized_tokens := 0,
        saved_tokens := 0, saved_percentage := 0, model := "mock-model",
        guide_name := none, guide_source := none, transformations := [], tip := none }
      rfl⟩

/-- C6 counterexample: for the guide-less model identifier "unknown-model"
and the prompt "Please help me" (word-count token counter), the optimized
text of `get_optimization_details` is "help me", which differs from the
prompt — refuting the claim that the guide-absent branch returns the prompt
unchanged. -/
theorem details_no_guide_counterexample :
    get_optimization_details split_count "unknown-model" ("Please help me".data) 0 =
      Except.ok { original := "Please help me".data,
                  optimized := "help me".data,
                  guide_name := none,
                  guide_source := none,
                  transformations := [],
                  tip := none,
                  original_tokens := 3,
                  optimized_tokens := 2,
                  saved_tokens := 1,
                  saved_percentage := 1 / 3 * 100,
                  model := "unknown-model" } ∧
    ("help me".data : List Char) ≠ "Please help me".data := ⟨rfl, by decide⟩

/-- C6 amended: when no guide resolves for the bound model,
`get_optimization_details` returns empty transformations, null guide fields
and a null tip, with token counts from the bound counter — but its optimized
text is the generic fallback optimization of the prompt (the three hardcoded
courtesy-phrase removals of `optimize_prompt`), which equals the prompt only
when none of those patterns occur. -/
theorem details_no_guide_generic (count_tokens : List Char → Nat) (model_name : String)
    (prompt : List Char) (rand : Nat) (h : get_guide_for_model model_name = none) :
    get_optimization_details count_tokens model_name prompt rand =
      Except.ok { original := prompt,
                  optimized := generic_optimize prompt,
                  guide_name := none,
                  guide_source := none,
                  transformations := [],
                  tip := none,
                  original_tokens := count_tokens prompt,
                  optimized_tokens := count_tokens (generic_optimize prompt),
                  saved_tokens :=
                    (count_tokens prompt : Int) - (count_tokens (generic_optimize prompt) : Int),
                  saved_percentage :=
                    if count_tokens prompt > 0 then
                      (((count_tokens prompt : Int) -
                          (count_tokens (generic_optimize prompt) : Int) : Int) : ℚ) /
                        ((count_tokens prompt : Nat) : ℚ) * 100
                    else 0,
                  model := model_name } := by
  simp only [get_optimization_details, optimize_prompt, h, Option.isSome_none,
    Bool.false_eq_true, if_false]

/-- C6 amended witness: the amended claim at the concrete counterexample
input. -/
theorem details_no_guide_generic_witness :
    get_optimization_details split_count "unknown-model" ("Please help me".data) 0 =
      Except.ok { original := "Please help me".data,
                  optimized := generic_optimize ("Please help me".data),
                  guide_name := none,
                  guide_source := none,
                  transformations := [],
                  tip := none,
                  original_tokens := split_count ("Please help me".data),
                  optimized_tokens := split_count (generic_optimize ("Please help me".data)),
                  saved_tokens :=
                    (split_count ("Please help me".data) : Int) -
                      (split_count (generic_optimize ("Please help me".data)) : Int),
                  saved_percentage :=
                    if split_count ("Please help me".data) > 0 then
                      (((split_count ("Please help me".data) : Int) -
                          (split_count (generic_optimize ("Please help me".data)) : Int) : Int) : ℚ) /
                        ((split_count ("Please help me".data) : Nat) : ℚ) * 100
                    else 0,
                  model := "unknown-model" } :=
  details_no_guide_generic split_count "unknown-model" ("Please help me".data) 0 (by decide)

/-- C7: for every resolved guide, `optimize` succeeds and its tip is one
member of the guide's tip list chosen by the injected random draw — the tip
draw never raises — and for a resolved guide with an empty tip list the
result's tip would be null (vacuously: every resolved guide has five
tips). -/
theorem random_tip_from_resolved_guide (model_name : String) (g : Guide)
    (text : List Char) (rand : Nat) (h : get_guide_for_model model_name = some g) :
    ∃ res t, optimize (some g) text rand = Except.ok res ∧
      res.tip = some t ∧ t ∈ g.tips ∧ (g.tips = [] → res.tip = none) := by
  have h5 := resolved_tips_length model_name g h
  have hne : ¬ g.tips.length = 0 := by omega
  obtain ⟨t, hmem, hopt⟩ := optimize_resolved g text rand hne
  refine ⟨_, t, hopt, rfl, hmem, fun hempty => ?_⟩
  rw [hempty] at h5
  simp at h5

/-- C7 witness: the identifier "claude-2" resolves to the Claude guide. -/
theorem random_tip_from_resolved_guide_witness :
    ∃ res t, optimize (some CLAUDE_GUIDE) ("hi".data) 0 = Except.ok res ∧
      res.tip = some t ∧ t ∈ CLAUDE_GUIDE.tips ∧
      (CLAUDE_GUIDE.tips = [] → res.tip = none) :=
  random_tip_from_resolved_guide "claude-2" CLAUDE_GUIDE ("hi".data) 0 (by decide)

/-- C8: the two-rule guide of the spec scenario applied to
"Could you please kindly help me" yields "help me" with exactly two recorded
transformations, one per rule, in rule order. -/
theorem concrete_two_rule_scenario :
    apply_transforms
        [{ pattern := lits "Could you please" ++ [RTok.wsPlus], replacement := [] },
         { pattern := lits "kindly" ++ [RTok.wsPlus], replacement := [] }]
        ("Could you please kindly help me".data) =
      ("help me".data,
       [{ pattern := lits "Could you please" ++ [RTok.wsPlus],
          replacement := [],
          before := "Could you please kindly help me".data,
          after := "kindly help me".data },
        { pattern := lits "kindly" ++ [RTok.wsPlus],
          replacement := [],
          before := "kindly help me".data,
          after := "help me".data }]) := by decide

/-- C9: both façades raise the `ValueError` configuration error first when
no model (or an empty one) is selected; but with a model selected,
`ScaleDown.optimize` fails with `AttributeError` after guide resolution and
the mock optimization complete (it reads `.model_name` off the stored
identifier string), contradicting the claim that the precondition violation
is the only caller-facing failure. -/
theorem facade_failure_behavior :
    ScaleDown_optimize none ("Hello".data) 0 =
      Except.error "ValueError: No model selected. Call select_model() first." ∧
    ScaleDown_optimize (some "") ("Hello".data) 0 =
      Except.error "ValueError: No model selected. Call select_model() first." ∧
    compress_via_api none ("Hello".data) (Except.error "API request failed") 0 =
      Except.error "ValueError: No model selected. Call select_model() first." ∧
    ScaleDown_optimize (some "gpt-4") ("Hello".data) 0 =
      Except.error "AttributeError: str object has no attribute model_name" :=
  ⟨rfl, rfl, rfl, rfl⟩

/-- C10: every trace returned by `optimize` chains exactly through the text
states — the first record starts at the input text, each record's after
snapshot is the next record's before snapshot, the last record's after
snapshot is the optimized text, and an empty trace forces the optimized
text to equal the input. -/
theorem trace_chains_through_states (guide : Option Guide) (text : List Char)
    (rand : Nat) (res : OptimizeResult) (h : optimize guide text rand = Except.ok res) :
    chained text res.transformations res.optimized := by
  cases guide with
  | none =>
    simp only [optimize] at h
    injection h with h
    subst h
    exact rfl
  | some g =>
    obtain ⟨-, h2, h3, -, -⟩ := optimize_ok_fields g text rand res h
    rw [h2, h3]
    exact apply_transforms_chained _ _

/-- C10 witness: the chain at a concrete one-record trace. -/
theorem trace_chains_through_states_witness :
    chained ("Please help".data)
      [{ pattern := lits "Please" ++ [RTok.wsPlus], replacement := [],
         before := "Please help".data, after := "help".data }]
      ("help".data) :=
  trace_chains_through_states (some SAMPLE_GUIDE) ("Please help".data) 0
    { original := "Please help".data,
      optimized := "help".data,
      guide_name := some "Sample",
      guide_source := some "Test",
      transformations := [{ pattern := lits "Please" ++ [RTok.wsPlus],
                            replacement := [],
                            before := "Please help".data,
                            after := "help".data }],
      tip := some { title := "t", description := "d",
                    example_before := "b", example_after := "a" } }
    rfl
